import Mathlib

/-!
Verification of the multi-region replication monitor
(`src/replication_monitor.py`), shallowly embedded in Lean 4.

The monitor keeps two in-memory lists (`metrics_history`, `alerts`),
polls a primary and two replicas for `COUNT(*)` and `MAX(id)` over a
test table, computes lag, classifies health, and raises alerts.
Database queries are external effects: they are modelled as inputs
(`RegionQueries`, one per region), each query result being an
`Except String _` (an exception carries its message).  Python integers
are `Int` where subtraction occurs (lag can go negative) and `Nat` for
row counts and ids coming back from the database.
-/

namespace ReplicationMonitor

/-- Static configuration of one region (`self.regions` values). -/
structure RegionConfig where
  host : String
  port : Nat
  role : String
deriving Repr, DecidableEq

/-- The field `self.regions`: insertion-ordered map from region name to config. -/
def regions : List (String × RegionConfig) :=
  [("us-west", ⟨"localhost", 5441, "primary"⟩),
   ("us-east", ⟨"localhost", 5442, "replica"⟩),
   ("eu-west", ⟨"localhost", 5443, "replica"⟩)]

/-- Method `connect_all`: attempts a connection per configured region
(success of each attempt is the external input `connOk`); every
successful connection is recorded in `self.connections` (initially
empty, as set by `__init__`).  Returns the connection list and the
boolean `len(self.connections) == len(self.regions)`. -/
def connect_all (connOk : String → Bool) : List String × Bool :=
  let connections :=
    regions.foldl (fun acc r => if connOk r.1 then acc ++ [r.1] else acc) []
  (connections, connections.length == regions.length)

/-- The `replication_test` table: rows `(id, region, data)` plus the
`SERIAL` sequence state (`next_id`). -/
structure TestTable where
  rows : List (Nat × String × String)
  next_id : Nat
deriving Repr, DecidableEq

/-- The state of the primary database as far as the monitor touches it:
the two tables, `none` when a table does not exist.  For
`transactions` only the row count matters to the monitor. -/
structure PrimaryDb where
  replication_test : Option TestTable
  transactions : Option Nat
deriving Repr, DecidableEq

/-- Method `setup_primary`: the SQL script run on the primary —
`DROP TABLE IF EXISTS replication_test; DROP TABLE IF EXISTS
transactions;` then `CREATE` both tables fresh (resetting the serial
sequence to 1) and `INSERT ... FROM generate_series(1, 1000)` into
`transactions`. -/
def setup_primary (db : PrimaryDb) : PrimaryDb :=
  let db1 := { db with replication_test := none }
  let db2 := { db1 with transactions := none }
  let db3 := { db2 with replication_test := some ⟨[], 1⟩ }
  let db4 := { db3 with transactions := some 0 }
  { db4 with transactions := some 1000 }

/-- One `INSERT INTO replication_test (region, data) VALUES (...)`:
the serial column assigns `next_id`. -/
def insertTestRow (t : TestTable) (region data : String) : TestTable :=
  ⟨t.rows ++ [(t.next_id, region, data)], t.next_id + 1⟩

/-- Method `simulate_writes(count)`: inserts `count` rows into
`replication_test` on the primary (the Python row data embeds a
timestamp, elided here).  Fails like the underlying client when the
table does not exist. -/
def simulate_writes (db : PrimaryDb) (count : Nat) : Except String PrimaryDb :=
  match db.replication_test with
  | none => Except.error "relation replication_test does not exist"
  | some t =>
    let t2 := (List.range count).foldl
      (fun acc i => insertTestRow acc "us-west" ("Test data " ++ toString i)) t
    Except.ok { db with replication_test := some t2 }

/-- An entry of `self.alerts` (a Python dict built by `create_alert`). -/
structure Alert where
  timestamp : Nat
  region : String
  severity : String
  message : String
  lag_count : Int
deriving Repr, DecidableEq

/-- The alert dict literal built inside `create_alert`. -/
def mkAlert (now : Nat) (region : String) (lag : Int) : Alert :=
  { timestamp := now
    region := region
    severity := if lag < 50 then "WARNING" else "CRITICAL"
    message := "High replication lag detected: " ++ toString lag ++ " records behind"
    lag_count := lag }

/-- The primary sub-dict of a status snapshot. -/
structure PrimaryStatus where
  region : String
  record_count : Nat
  max_id : Nat
deriving Repr, DecidableEq

/-- A replicas-list entry of the status dict: either the full metrics dict or the
error dict `{region, error, is_healthy}` built in the `except` arm. -/
inductive ReplicaStatus where
  | ok (region : String) (record_count : Nat) (max_id : Nat)
      (lag_records : Int) (lag_ids : Int) (is_healthy : Bool)
  | error (region : String) (error : String) (is_healthy : Bool)
deriving Repr, DecidableEq

/-- The `status` dict built by `check_replication_status`. -/
structure StatusSnapshot where
  timestamp : Nat
  primary : PrimaryStatus
  replicas : List ReplicaStatus
deriving Repr, DecidableEq

/-- The mutable in-memory monitor state touched by polling and
alerting: `self.metrics_history` and `self.alerts`. -/
structure MonitorState where
  metrics_history : List StatusSnapshot
  alerts : List Alert
deriving Repr, DecidableEq

/-- Method `create_alert(region, lag)`: appends one alert dict to
`self.alerts` (then logs a warning). -/
def create_alert (st : MonitorState) (now : Nat) (region : String) (lag : Int) :
    MonitorState :=
  { st with alerts := st.alerts ++ [mkAlert now region lag] }

/-- The two query results the connection of one region can be asked for
during a poll: `SELECT COUNT(*)` and `SELECT MAX(id)` (the latter is
`NULL` on an empty table, hence `Option`). -/
structure RegionQueries where
  countQ : Except String Nat
  maxQ : Except String (Option Nat)

/-- The body of the per-replica `for` loop in
`check_replication_status` (lines 118-154): run both queries inside
`try`, compute lag, classify health (`lag_records < 10`), and call
`create_alert` when unhealthy; on an exception record the error
dict instead and leave the state alone.  Returns the status entry
appended to the replicas list and the updated monitor state. -/
def checkReplica (now primary_count primary_max_id : Nat) (region : String)
    (q : RegionQueries) (st : MonitorState) : ReplicaStatus × MonitorState :=
  match q.countQ with
  | Except.error e => (ReplicaStatus.error region e false, st)
  | Except.ok replica_count =>
    match q.maxQ with
    | Except.error e => (ReplicaStatus.error region e false, st)
    | Except.ok m =>
      let replica_max_id := m.getD 0
      let lag_records : Int := (primary_count : Int) - (replica_count : Int)
      let lag_ids : Int := (primary_max_id : Int) - (replica_max_id : Int)
      let is_healthy : Bool := decide (lag_records < 10)
      let st2 := if is_healthy then st else create_alert st now region lag_records
      (ReplicaStatus.ok region replica_count replica_max_id lag_records lag_ids
        is_healthy, st2)

/-- The replica `for` loop itself, over the region list
(us-east then eu-west), threading the monitor state. -/
def checkReplicas (now primary_count primary_max_id : Nat)
    (env : String → RegionQueries) :
    List String → MonitorState → List ReplicaStatus × MonitorState
  | [], st => ([], st)
  | r :: rest, st =>
    let p := checkReplica now primary_count primary_max_id r (env r) st
    let ps := checkReplicas now primary_count primary_max_id env rest p.2
    (p.1 :: ps.1, ps.2)

/-- Method `check_replication_status`: queries the primary first (NOT inside
any `try`: a primary-side exception propagates, and since no mutation
has happened yet the state is returned unchanged alongside the
error), builds the status dict, runs the replica loop, appends the
snapshot to `self.metrics_history` and returns it. -/
def check_replication_status (now : Nat) (env : String → RegionQueries)
    (st : MonitorState) : Except String StatusSnapshot × MonitorState :=
  match (env "us-west").countQ with
  | Except.error e => (Except.error e, st)
  | Except.ok primary_count =>
    match (env "us-west").maxQ with
    | Except.error e => (Except.error e, st)
    | Except.ok pm =>
      let primary_max_id := pm.getD 0
      let p := checkReplicas now primary_count primary_max_id env
        ["us-east", "eu-west"] st
      let snapshot : StatusSnapshot :=
        { timestamp := now
          primary := ⟨"us-west", primary_count, primary_max_id⟩
          replicas := p.1 }
      (Except.ok snapshot,
       { p.2 with metrics_history := p.2.metrics_history ++ [snapshot] })

/-- The lines of one replica in `print_status` (thousands separators of
the Python formatting elided). -/
def replicaLines (r : ReplicaStatus) : List String :=
  match r with
  | ReplicaStatus.error region e _ =>
    ["  " ++ region ++ ": ERROR", "    " ++ e]
  | ReplicaStatus.ok region record_count max_id lag_records _ is_healthy =>
    ["  " ++ region ++ ": " ++ (if is_healthy then "HEALTHY" else "LAGGING"),
     "    Records: " ++ toString record_count,
     "    Max ID: " ++ toString max_id,
     "    Lag: " ++ toString lag_records ++ " records"] ++
    (if 0 < lag_records then
      ["    Status: Behind by " ++ toString lag_records ++ " records"] else [])

/-- Method `print_status(status)`: pure formatting of a snapshot (plus the
active-alert count read from `self.alerts`); it only reads the
monitor state, producing output lines. -/
def print_status (st : MonitorState) (status : StatusSnapshot) : List String :=
  let recent := st.alerts.filter (fun a => status.timestamp < a.timestamp)
  ["MULTI-REGION REPLICATION STATUS",
   "PRIMARY (us-west):",
   "  Total Records: " ++ toString status.primary.record_count,
   "  Max ID: " ++ toString status.primary.max_id] ++
  (status.replicas.foldl (fun acc r => acc ++ replicaLines r) []) ++
  (if st.alerts.isEmpty then []
   else if recent.isEmpty then []
   else ["ACTIVE ALERTS: " ++ toString recent.length])

/-- The observable high-level operations `run_monitoring` performs,
in order. -/
inductive MonitorOp where
  | connect_all_op
  | setup_primary_op
  | sleep_op (seconds : Nat)
  | simulate_writes_op (count : Nat)
  | check_status_op
  | print_status_op
  | print_summary_op
deriving Repr, DecidableEq

/-- The body of one `while` iteration in `run_monitoring` (lines
224-234): `iteration` has just been incremented; on even iterations
`simulate_writes(5)` runs first, then `check_replication_status()`
always runs, then on even iterations `print_status` runs, then
`time.sleep(5)`. -/
def tick_ops (iteration : Nat) : List MonitorOp :=
  (if iteration % 2 == 0 then [MonitorOp.simulate_writes_op 5] else []) ++
  [MonitorOp.check_status_op] ++
  (if iteration % 2 == 0 then [MonitorOp.print_status_op] else []) ++
  [MonitorOp.sleep_op 5]

/-- Method `run_monitoring(duration)` as its operation trace: if
`connect_all` did not succeed it logs and returns at once; otherwise
it seeds the primary, sleeps the 3s grace period, runs the `while`
loop (`ticks` iterations, the count the wall-clock bound admits,
iterations numbered from 1) and prints the summary. -/
def run_monitoring_ops (connect_ok : Bool) (ticks : Nat) : List MonitorOp :=
  if !connect_ok then [MonitorOp.connect_all_op]
  else
    [MonitorOp.connect_all_op, MonitorOp.setup_primary_op, MonitorOp.sleep_op 3] ++
    (List.range ticks).foldl (fun acc i => acc ++ tick_ops (i + 1)) [] ++
    [MonitorOp.print_summary_op]


/-! ## Theorems -/

/-- C4: `setup_primary` is idempotent: two successive runs end with
exactly 1000 rows in `transactions` and 0 rows in `replication_test`,
the same final state as one run. -/
theorem c4_setup_primary_idempotent (db : PrimaryDb) :
    setup_primary (setup_primary db) = setup_primary db ∧
    (setup_primary (setup_primary db)).transactions = some 1000 ∧
    (setup_primary (setup_primary db)).replication_test.map
      (fun t => t.rows.length) = some 0 :=
  ⟨rfl, rfl, rfl⟩

/-- C2: every alert built by `create_alert` with lag `L` is appended
to the alert list and carries severity `WARNING` when `L < 50` and
`CRITICAL` when `L >= 50`. -/
theorem c2_alert_severity (st : MonitorState) (now : Nat) (region : String)
    (lag : Int) :
    (create_alert st now region lag).alerts = st.alerts ++ [mkAlert now region lag] ∧
    (lag < 50 → (mkAlert now region lag).severity = "WARNING") ∧
    (50 ≤ lag → (mkAlert now region lag).severity = "CRITICAL") := by
  refine ⟨rfl, fun h => ?_, fun h => ?_⟩
  · simp [mkAlert, h]
  · have h2 : ¬ lag < 50 := by omega
    simp [mkAlert, h2]

/-- Concrete instances of the severity classification. -/
theorem c2_alert_severity_witness :
    (mkAlert 0 "us-east" 10).severity = "WARNING" ∧
    (mkAlert 0 "eu-west" 60).severity = "CRITICAL" :=
  ⟨(c2_alert_severity ⟨[], []⟩ 0 "us-east" 10).2.1 (by decide),
   (c2_alert_severity ⟨[], []⟩ 0 "eu-west" 60).2.2 (by decide)⟩

/-- C7: a replica whose record count and max id match the primary
gets `lag_records = 0`, `lag_ids = 0`, `is_healthy = true`, and the
monitor state is untouched (no alert). -/
theorem c7_in_sync_replica_healthy (now pc pmid : Nat) (region : String)
    (q : RegionQueries) (st : MonitorState) (m : Option Nat)
    (hc : q.countQ = Except.ok pc) (hm : q.maxQ = Except.ok m)
    (hid : m.getD 0 = pmid) :
    checkReplica now pc pmid region q st =
      (ReplicaStatus.ok region pc pmid 0 0 true, st) := by
  simp [checkReplica, hc, hm, hid]

/-- Concrete instance of the in-sync case. -/
theorem c7_in_sync_replica_healthy_witness :
    checkReplica 0 12 12 "us-east" ⟨Except.ok 12, Except.ok (some 12)⟩ ⟨[], []⟩ =
      (ReplicaStatus.ok "us-east" 12 12 0 0 true, ⟨[], []⟩) :=
  c7_in_sync_replica_healthy 0 12 12 "us-east" _ _ (some 12) rfl rfl rfl

/-- C1: a replica whose queries succeed with `lag_records >= 10` is
reported unhealthy and exactly one alert, with `lag_count` equal to
`lag_records`, is appended to the alert list. -/
theorem c1_high_lag_unhealthy_one_alert (now pc pmid : Nat) (region : String)
    (q : RegionQueries) (st : MonitorState) (c : Nat) (m : Option Nat)
    (hc : q.countQ = Except.ok c) (hm : q.maxQ = Except.ok m)
    (hlag : 10 ≤ (pc : Int) - (c : Int)) :
    (checkReplica now pc pmid region q st).1 =
      ReplicaStatus.ok region c (m.getD 0) ((pc : Int) - (c : Int))
        ((pmid : Int) - ((m.getD 0 : Nat) : Int)) false ∧
    (checkReplica now pc pmid region q st).2.alerts =
      st.alerts ++ [mkAlert now region ((pc : Int) - (c : Int))] := by
  have hh : ¬ ((pc : Int) - (c : Int) < 10) := by omega
  simp [checkReplica, hc, hm, hh, create_alert]

/-- Concrete instance of the high-lag case. -/
theorem c1_high_lag_unhealthy_one_alert_witness :
    (checkReplica 0 20 20 "us-east" ⟨Except.ok 5, Except.ok (some 5)⟩ ⟨[], []⟩).1 =
      ReplicaStatus.ok "us-east" 5 5 15 15 false ∧
    (checkReplica 0 20 20 "us-east" ⟨Except.ok 5, Except.ok (some 5)⟩ ⟨[], []⟩).2.alerts =
      [mkAlert 0 "us-east" 15] := by
  have h := c1_high_lag_unhealthy_one_alert 0 20 20 "us-east"
    ⟨Except.ok 5, Except.ok (some 5)⟩ ⟨[], []⟩ 5 (some 5) rfl rfl (by decide)
  simpa using h


/-- A replica whose COUNT or MAX query fails yields the error dict
and leaves the monitor state alone. -/
theorem checkReplica_query_error (now pc pmid : Nat) (region : String)
    (q : RegionQueries) (st : MonitorState) (e : String)
    (h : q.countQ = Except.error e ∨
         ∃ c, q.countQ = Except.ok c ∧ q.maxQ = Except.error e) :
    checkReplica now pc pmid region q st =
      (ReplicaStatus.error region e false, st) := by
  rcases h with h | ⟨c, hc, hm⟩
  · simp [checkReplica, h]
  · simp [checkReplica, hc, hm]

/-- C3: when the primary queries succeed and the first replica
(us-east) fails one of its queries, the poll still returns a snapshot
whose replicas list holds the us-east error entry followed by the
eu-west entry produced by its own check, and the snapshot is appended
to the history. -/
theorem c3_replica_failure_does_not_abort (now : Nat)
    (env : String → RegionQueries) (st : MonitorState)
    (pc : Nat) (pm : Option Nat) (e : String)
    (hpc : (env "us-west").countQ = Except.ok pc)
    (hpm : (env "us-west").maxQ = Except.ok pm)
    (he : (env "us-east").countQ = Except.error e ∨
          ∃ c, (env "us-east").countQ = Except.ok c ∧
               (env "us-east").maxQ = Except.error e) :
    (check_replication_status now env st).1 =
      Except.ok
        { timestamp := now
          primary := ⟨"us-west", pc, pm.getD 0⟩
          replicas := [ReplicaStatus.error "us-east" e false,
            (checkReplica now pc (pm.getD 0) "eu-west" (env "eu-west") st).1] } ∧
    (check_replication_status now env st).2.metrics_history =
      st.metrics_history ++
        [{ timestamp := now
           primary := ⟨"us-west", pc, pm.getD 0⟩
           replicas := [ReplicaStatus.error "us-east" e false,
             (checkReplica now pc (pm.getD 0) "eu-west" (env "eu-west") st).1] }] := by
  have heast := checkReplica_query_error now pc (pm.getD 0) "us-east"
    (env "us-east") st e he
  have hwest : (checkReplica now pc (pm.getD 0) "eu-west" (env "eu-west") st).2.metrics_history
      = st.metrics_history := by
    cases hc : (env "eu-west").countQ with
    | error e2 => simp [checkReplica, hc]
    | ok c =>
      cases hm : (env "eu-west").maxQ with
      | error e2 => simp [checkReplica, hc, hm]
      | ok m =>
        simp only [checkReplica, hc, hm]
        split <;> simp [create_alert]
  constructor
  · simp [check_replication_status, hpc, hpm, checkReplicas, heast]
  · simp [check_replication_status, hpc, hpm, checkReplicas, heast, hwest]

/-- Query environment exercising a us-east failure. -/
def envReplicaDown : String → RegionQueries := fun r =>
  if r == "us-east" then ⟨Except.error "boom", Except.ok none⟩
  else ⟨Except.ok 7, Except.ok (some 7)⟩

/-- Concrete instance: a us-east failure still yields a two-entry
snapshot appended to history. -/
theorem c3_replica_failure_does_not_abort_witness :
    (check_replication_status 0 envReplicaDown ⟨[], []⟩).1 =
      Except.ok
        { timestamp := 0
          primary := ⟨"us-west", 7, 7⟩
          replicas := [ReplicaStatus.error "us-east" "boom" false,
            ReplicaStatus.ok "eu-west" 7 7 0 0 true] } ∧
    (check_replication_status 0 envReplicaDown ⟨[], []⟩).2.metrics_history =
      [{ timestamp := 0
         primary := ⟨"us-west", 7, 7⟩
         replicas := [ReplicaStatus.error "us-east" "boom" false,
           ReplicaStatus.ok "eu-west" 7 7 0 0 true] }] := by
  have h := c3_replica_failure_does_not_abort 0 envReplicaDown ⟨[], []⟩
    7 (some 7) "boom" rfl rfl (Or.inl rfl)
  simpa [envReplicaDown, checkReplica] using h

/-- C9: when every MAX(id) query returns NULL (empty table), the poll
reports `max_id = 0` for the primary and for each replica, and
`lag_ids` is computed from those zeros (hence 0). -/
theorem c9_null_max_id_reported_zero (now : Nat)
    (env : String → RegionQueries) (st : MonitorState) (pc ce cw : Nat)
    (hpc : (env "us-west").countQ = Except.ok pc)
    (hpm : (env "us-west").maxQ = Except.ok none)
    (hec : (env "us-east").countQ = Except.ok ce)
    (hem : (env "us-east").maxQ = Except.ok none)
    (hwc : (env "eu-west").countQ = Except.ok cw)
    (hwm : (env "eu-west").maxQ = Except.ok none) :
    (check_replication_status now env st).1 =
      Except.ok
        { timestamp := now
          primary := ⟨"us-west", pc, 0⟩
          replicas := [
            ReplicaStatus.ok "us-east" ce 0 ((pc : Int) - (ce : Int)) 0
              (decide ((pc : Int) - (ce : Int) < 10)),
            ReplicaStatus.ok "eu-west" cw 0 ((pc : Int) - (cw : Int)) 0
              (decide ((pc : Int) - (cw : Int) < 10))] } := by
  simp [check_replication_status, hpc, hpm, checkReplicas, checkReplica,
    hec, hem, hwc, hwm]

/-- Query environment in which every MAX(id) is NULL. -/
def envEmptyTables : String → RegionQueries := fun r =>
  if r == "eu-west" then ⟨Except.ok 0, Except.ok none⟩
  else ⟨Except.ok 3, Except.ok none⟩

/-- Concrete instance of the NULL max id substitution. -/
theorem c9_null_max_id_reported_zero_witness :
    (check_replication_status 0 envEmptyTables ⟨[], []⟩).1 =
      Except.ok
        { timestamp := 0
          primary := ⟨"us-west", 3, 0⟩
          replicas := [ReplicaStatus.ok "us-east" 3 0 0 0 true,
            ReplicaStatus.ok "eu-west" 0 0 3 0 true] } := by
  have h := c9_null_max_id_reported_zero 0 envEmptyTables ⟨[], []⟩
    3 3 0 rfl rfl rfl rfl rfl rfl
  simpa using h

/-- C10: a primary-side query failure propagates out of
`check_replication_status` and leaves the monitor state unchanged (no
snapshot appended, no alert appended). -/
theorem c10_primary_failure_propagates (now : Nat)
    (env : String → RegionQueries) (st : MonitorState) (e : String) :
    ((env "us-west").countQ = Except.error e →
      check_replication_status now env st = (Except.error e, st)) ∧
    (∀ c, (env "us-west").countQ = Except.ok c →
      (env "us-west").maxQ = Except.error e →
      check_replication_status now env st = (Except.error e, st)) := by
  constructor
  · intro h
    simp [check_replication_status, h]
  · intro c hc hm
    simp [check_replication_status, hc, hm]

/-- Query environment in which the primary COUNT query fails. -/
def envPrimaryCountDown : String → RegionQueries := fun _ =>
  ⟨Except.error "down", Except.ok none⟩

/-- Query environment in which the primary MAX query fails. -/
def envPrimaryMaxDown : String → RegionQueries := fun _ =>
  ⟨Except.ok 1, Except.error "down"⟩

/-- Concrete instances of primary-side failure propagation. -/
theorem c10_primary_failure_propagates_witness :
    check_replication_status 0 envPrimaryCountDown ⟨[], []⟩ =
      (Except.error "down", ⟨[], []⟩) ∧
    check_replication_status 0 envPrimaryMaxDown ⟨[], []⟩ =
      (Except.error "down", ⟨[], []⟩) :=
  ⟨(c10_primary_failure_propagates 0 envPrimaryCountDown ⟨[], []⟩ "down").1 rfl,
   (c10_primary_failure_propagates 0 envPrimaryMaxDown ⟨[], []⟩ "down").2 1 rfl rfl⟩


/-- C5: `connect_all` reports success exactly when every configured
region connected, and when it reports failure `run_monitoring` stops
right after the connection step: no seeding, no writes, no poll. -/
theorem c5_connect_gate (connOk : String → Bool) (ticks : Nat) :
    ((connect_all connOk).2 = true ↔ ∀ r ∈ regions, connOk r.1 = true) ∧
    ((connect_all connOk).2 = false →
      MonitorOp.setup_primary_op ∉
        run_monitoring_ops (connect_all connOk).2 ticks ∧
      (∀ c, MonitorOp.simulate_writes_op c ∉
        run_monitoring_ops (connect_all connOk).2 ticks) ∧
      MonitorOp.check_status_op ∉
        run_monitoring_ops (connect_all connOk).2 ticks) := by
  constructor
  · cases h1 : connOk "us-west" <;> cases h2 : connOk "us-east" <;>
      cases h3 : connOk "eu-west" <;> simp_all [connect_all, regions]
  · intro h
    rw [h]
    simp [run_monitoring_ops]

/-- Connection oracle under which only us-west connects. -/
def connOkOnlyPrimary : String → Bool := fun r => r == "us-west"

/-- Concrete instance: with a failed connection the run performs
neither seeding, nor writes, nor a poll. -/
theorem c5_connect_gate_witness :
    MonitorOp.setup_primary_op ∉
      run_monitoring_ops (connect_all connOkOnlyPrimary).2 3 ∧
    MonitorOp.simulate_writes_op 5 ∉
      run_monitoring_ops (connect_all connOkOnlyPrimary).2 3 ∧
    MonitorOp.check_status_op ∉
      run_monitoring_ops (connect_all connOkOnlyPrimary).2 3 := by
  have h := (c5_connect_gate connOkOnlyPrimary 3).2 (by decide)
  exact ⟨h.1, h.2.1 5, h.2.2⟩

/-- C6 as stated is false: iteration 2 of the monitoring loop
performs both the batch of 5 simulated writes and a poll, so the loop
does not alternate between the two. -/
theorem c6_counterexample :
    MonitorOp.simulate_writes_op 5 ∈ tick_ops 2 ∧
    MonitorOp.check_status_op ∈ tick_ops 2 := by
  decide

/-- C6 amended: every iteration polls; even-numbered iterations
additionally issue the 5 simulated writes before the poll and print a
report after it; each iteration ends with the 5s sleep. -/
theorem c6_amended_tick_structure (n : Nat) :
    MonitorOp.check_status_op ∈ tick_ops n ∧
    (MonitorOp.simulate_writes_op 5 ∈ tick_ops n ↔ n % 2 = 0) ∧
    (MonitorOp.print_status_op ∈ tick_ops n ↔ n % 2 = 0) ∧
    (tick_ops n).getLast? = some (MonitorOp.sleep_op 5) := by
  rcases Nat.mod_two_eq_zero_or_one n with h | h <;> simp [tick_ops, h]

/-- The function `checkReplica` only ever appends to the alert list. -/
theorem checkReplica_alerts_extend (now pc pmid : Nat) (region : String)
    (q : RegionQueries) (st : MonitorState) :
    st.alerts <+: (checkReplica now pc pmid region q st).2.alerts := by
  cases hc : q.countQ with
  | error e => simp [checkReplica, hc]
  | ok c =>
    cases hm : q.maxQ with
    | error e => simp [checkReplica, hm, hc]
    | ok m =>
      simp only [checkReplica, hm, hc]
      split
      · exact List.prefix_refl _
      · exact List.prefix_append _ _

/-- The replica loop only ever appends to the alert list. -/
theorem checkReplicas_alerts_extend (now pc pmid : Nat)
    (env : String → RegionQueries) (rs : List String) (st : MonitorState) :
    st.alerts <+: (checkReplicas now pc pmid env rs st).2.alerts := by
  induction rs generalizing st with
  | nil => exact List.prefix_refl _
  | cons r rest ih =>
    simp only [checkReplicas]
    exact (checkReplica_alerts_extend now pc pmid r (env r) st).trans (ih _)

/-- A whole poll only ever appends to the alert list. -/
theorem check_status_alerts_extend (now : Nat) (env : String → RegionQueries)
    (st : MonitorState) :
    st.alerts <+: (check_replication_status now env st).2.alerts := by
  cases hc : (env "us-west").countQ with
  | error e => simp [check_replication_status, hc]
  | ok c =>
    cases hm : (env "us-west").maxQ with
    | error e => simp [check_replication_status, hm, hc]
    | ok m =>
      simp only [check_replication_status, hm, hc]
      exact checkReplicas_alerts_extend now c (m.getD 0) env _ st

/-- C8: the alert list is append-only.  `create_alert` always appends
exactly one alert (it is total: it cannot fail), and the stateful
operations of the monitor (`checkReplica`, the full poll) leave the
existing alerts as a prefix, never removing or modifying one.  The
remaining operations (`connect_all`, `setup_primary`,
`simulate_writes`, `print_status`) do not touch the alert list at
all, as their types show. -/
theorem c8_alerts_append_only (st : MonitorState) (now pc pmid : Nat)
    (region : String) (lag : Int) (q : RegionQueries)
    (env : String → RegionQueries) :
    (create_alert st now region lag).alerts =
      st.alerts ++ [mkAlert now region lag] ∧
    st.alerts <+: (checkReplica now pc pmid region q st).2.alerts ∧
    st.alerts <+: (check_replication_status now env st).2.alerts :=
  ⟨rfl, checkReplica_alerts_extend now pc pmid region q st,
    check_status_alerts_extend now env st⟩

end ReplicationMonitor
